import Mathlib

/-!
Verification of the OSS-backend record-management service (src/main.py).

The program is a FastAPI application over a MySQL store with three
independent tables (users, mentors, service providers).  We shallowly embed
it as pure functions over an explicit `Store` value:

* each SQLAlchemy model class becomes a Lean structure with the same fields
  (auto-increment integer ids become `Nat` counters in the store);
* each request handler becomes a function taking its form/query parameters
  and the store, returning its response (or an `HTTPException`, mirroring
  `raise HTTPException(...)`) together with the resulting store;
* `bcrypt.hashpw(·, bcrypt.gensalt())` (the body of `hash_password`) is an
  external library call; it is modelled as an abstract parameter
  `hashp : String → String` standing for hashing with the salt freshly
  drawn for that call;
* SQLAlchemy's `column.ilike(pat)` compiles to SQL `LIKE` with
  case-insensitive comparison and with MySQL's default escape character
  `\` active (SQLAlchemy emits no ESCAPE clause, and the handlers
  interpolate unescaped user input into the pattern); it is embedded as
  `ilike` below, a matcher for that language: `%` matches any sequence,
  `_` exactly one character, `\c` the literal character `c`, and every
  other pattern character compares case-insensitively;
* `query(T).offset(skip).limit(limit).all()` becomes `(drop skip).take limit`
  on the table list, `query(T).filter(...).first()` becomes `List.find?`.
-/

/-- Row of the `users` table (model class `User` in src/main.py). -/
structure User where
  id : Nat
  name : String
  email : String
  phone : String
  preferred_language : String
  role : String
  password_hash : String
deriving DecidableEq, Repr

/-- Row of the `mentors` table (model class `Mentor`). -/
structure Mentor where
  id : Nat
  name : String
  age : Int
  location : String
  expertise : String
  experience : Int
deriving DecidableEq, Repr

/-- Row of the `service_providers` table (model class `ServiceProvider`). -/
structure ServiceProvider where
  id : Nat
  name : String
  service_type : String
  experience : Int
  pricing_model : String
  availability : String
deriving DecidableEq, Repr

/-- The relational store: the three tables in insertion order plus the
auto-increment counter of each table. -/
structure Store where
  users : List User
  mentors : List Mentor
  providers : List ServiceProvider
  next_user_id : Nat
  next_mentor_id : Nat
  next_provider_id : Nat
deriving DecidableEq, Repr

/-- Mirrors FastAPI's `HTTPException(status_code=..., detail=...)`. -/
structure HTTPException where
  status_code : Nat
  detail : String
deriving DecidableEq, Repr

/-- All suffixes of a list, longest first, ending with `[]`. -/
def suffixesL : List Char → List (List Char)
  | [] => [[]]
  | c :: t => (c :: t) :: suffixesL t

/-- Token of the SQL `LIKE` pattern language: the wildcard `%` (any
character sequence), the wildcard `_` (exactly one character), or a literal
character to be compared case-insensitively. -/
inductive LikeTok where
  | pct
  | uscore
  | lit (c : Char)
deriving DecidableEq, Repr

/-- Escape processing of a LIKE pattern with MySQL's default escape
character `\` (active in the handlers' patterns because SQLAlchemy emits no
ESCAPE clause): `\c` yields the literal character `c` — so `\%`, `\_`,
`\\` yield literal `%`, `_`, `\` — while unescaped `%` and `_` yield
wildcards and any other character yields itself as a literal.  The flag
records a pending escape; a lone trailing `\` yields a literal backslash
(unreachable from the handlers, whose patterns always end in an appended
`%`). -/
def lexLikeAux : Bool → List Char → List LikeTok
  | true, [] => [LikeTok.lit '\\']
  | true, d :: ps => LikeTok.lit d :: lexLikeAux false ps
  | false, [] => []
  | false, c :: ps =>
    if c = '\\' then lexLikeAux true ps
    else if c = '%' then LikeTok.pct :: lexLikeAux false ps
    else if c = '_' then LikeTok.uscore :: lexLikeAux false ps
    else LikeTok.lit c :: lexLikeAux false ps

/-- Tokens of a LIKE pattern, escapes resolved. -/
def lexLike (pattern : List Char) : List LikeTok := lexLikeAux false pattern

/-- Matcher for a tokenized LIKE pattern: `pct` matches any (possibly
empty) character sequence, `uscore` exactly one character, and a literal
token matches one character case-insensitively (MySQL `ilike` compares
under case folding, which also folds the character an escape protected). -/
def likeMatchTokCI : List LikeTok → List Char → Bool
  | [], s => s.isEmpty
  | LikeTok.pct :: ps, s => (suffixesL s).any (fun t => likeMatchTokCI ps t)
  | LikeTok.uscore :: ps, s =>
    match s with
    | [] => false
    | _ :: s' => likeMatchTokCI ps s'
  | LikeTok.lit c :: ps, s =>
    match s with
    | [] => false
    | d :: s' => (c.toLower == d.toLower) && likeMatchTokCI ps s'

/-- Embeds SQLAlchemy `field.ilike(pattern)` against MySQL: LIKE matching
of the escape-processed pattern, comparing case-insensitively. -/
def ilike (field pattern : String) : Bool :=
  likeMatchTokCI (lexLike pattern.data) field.data

/-- Case-insensitive prefix test on character lists. -/
def isPrefixCI : List Char → List Char → Bool
  | [], _ => true
  | _ :: _, [] => false
  | a :: as, b :: bs => (a.toLower == b.toLower) && isPrefixCI as bs

/-- Case-insensitive containment (substring) test on character lists. -/
def isInfixCI (q : List Char) : List Char → Bool
  | [] => isPrefixCI q []
  | c :: t => isPrefixCI q (c :: t) || isInfixCI q t

/-- The spec's notion of search: `q` occurs in `s` as a case-insensitive
substring ("case-insensitive containment match against a text field"). -/
def strContainsCI (s q : String) : Bool :=
  isInfixCI q.data s.data

/-- Character list contains none of the SQL LIKE wildcards `%` and `_` and
not the escape character `\` either: such characters reach the pattern
uninterpreted, so only on queries free of all three does LIKE matching
coincide with substring containment. -/
def noWildcardL (q : List Char) : Bool :=
  q.all (fun c => !(c == '%') && !(c == '_') && !(c == '\\'))

/-- Query contains none of the SQL LIKE wildcard characters `%` and `_` and
not the escape character `\`. -/
def noWildcard (q : String) : Bool :=
  noWildcardL q.data

/-- Response dictionary of `register_user`: all submitted fields plus the
generated id; neither the raw password nor `password_hash` is a field. -/
structure RegisterUserResponse where
  id : Nat
  name : String
  email : String
  phone : String
  preferred_language : String
  role : String
deriving DecidableEq, Repr

/-- Handler `register_user` (POST /register/).  Rejects with 400 when a
stored user has exactly the submitted email (`filter(User.email == email)
.first()`), otherwise stores the row with `password_hash = hash_password(
password)` and responds without the hash.  `hashp` abstracts
`hash_password` (bcrypt with a fresh salt). -/
def register_user (hashp : String → String)
    (name email phone preferred_language role password : String)
    (db : Store) : Except HTTPException RegisterUserResponse × Store :=
  if (db.users.find? (fun u => u.email == email)).isSome then
    (Except.error ⟨400, "Email already registered"⟩, db)
  else
    let hashed_password := hashp password
    let db_user : User :=
      ⟨db.next_user_id, name, email, phone, preferred_language, role, hashed_password⟩
    ( Except.ok ⟨db_user.id, db_user.name, db_user.email, db_user.phone,
        db_user.preferred_language, db_user.role⟩,
      { db with users := db.users ++ [db_user], next_user_id := db.next_user_id + 1 } )

/-- Default of the `skip` form/query parameter of the list handlers. -/
def default_skip : Nat := 0

/-- Default of the `limit` form/query parameter of the list handlers. -/
def default_limit : Nat := 10

/-- Handler `fetch_users` (POST /users/): `query(User).offset(skip)
.limit(limit).all()`, raw rows, hash included. -/
def fetch_users (skip limit : Nat) (db : Store) : List User :=
  (db.users.drop skip).take limit

/-- Handler `register_mentor` (POST /mentors/): unconditional insert,
responds with all stored fields including the generated id. -/
def register_mentor (name : String) (age : Int) (location expertise : String)
    (experience : Int) (db : Store) : Mentor × Store :=
  let db_mentor : Mentor := ⟨db.next_mentor_id, name, age, location, expertise, experience⟩
  ( db_mentor,
    { db with mentors := db.mentors ++ [db_mentor],
              next_mentor_id := db.next_mentor_id + 1 } )

/-- Handler `fetch_mentors` (GET /mentors/). -/
def fetch_mentors (skip limit : Nat) (db : Store) : List Mentor :=
  (db.mentors.drop skip).take limit

/-- Handler `search_mentors_by_expertise` (POST /mentors/search/):
`filter(Mentor.expertise.ilike(f"%{expertise}%")).all()`, 404 when the
result list is empty. -/
def search_mentors_by_expertise (expertise : String) (db : Store) :
    Except HTTPException (List Mentor) × Store :=
  let mentors := db.mentors.filter (fun m => ilike m.expertise ("%" ++ expertise ++ "%"))
  if mentors.isEmpty then
    (Except.error ⟨404, "No mentors found with the given expertise"⟩, db)
  else
    (Except.ok mentors, db)

/-- Handler `register_service_provider` (POST /service-providers/). -/
def register_service_provider (name service_type : String) (experience : Int)
    (pricing_model availability : String) (db : Store) : ServiceProvider × Store :=
  let db_provider : ServiceProvider :=
    ⟨db.next_provider_id, name, service_type, experience, pricing_model, availability⟩
  ( db_provider,
    { db with providers := db.providers ++ [db_provider],
              next_provider_id := db.next_provider_id + 1 } )

/-- Handler `fetch_service_providers` (GET /service-providers/). -/
def fetch_service_providers (skip limit : Nat) (db : Store) : List ServiceProvider :=
  (db.providers.drop skip).take limit

/-- Handler `fetch_service_provider` (GET /service-providers/{provider_id}):
`filter(ServiceProvider.id == provider_id).first()`, 404 when absent. -/
def fetch_service_provider (provider_id : Nat) (db : Store) :
    Except HTTPException ServiceProvider × Store :=
  match db.providers.find? (fun p => p.id == provider_id) with
  | some provider => (Except.ok provider, db)
  | none => (Except.error ⟨404, "Service provider not found"⟩, db)

/-- Handler at POST /service-providers/search/ (in the source it reuses the
name `search_mentors_by_expertise`, shadowing the mentor handler at module
level; both routes stay registered): `filter(ServiceProvider.service_type
.ilike(f"%{service_type}%")).all()`, 404 when empty, with the copy-pasted
mentor error message. -/
def search_service_providers (service_type : String) (db : Store) :
    Except HTTPException (List ServiceProvider) × Store :=
  let provider := db.providers.filter
    (fun p => ilike p.service_type ("%" ++ service_type ++ "%"))
  if provider.isEmpty then
    (Except.error ⟨404, "No mentors found with the given expertise"⟩, db)
  else
    (Except.ok provider, db)

/-! Concrete rows and stores used to instantiate the claim theorems. -/

/-- Sample hash function standing in for bcrypt in concrete instantiations. -/
def hashW : String → String := fun s => String.append "bc$" s

/-- Store holding exactly one user row. -/
def dbW1 : Store :=
  ⟨[⟨1, "Ann", "ann@example.com", "111", "en", "user", "bc$secret"⟩], [], [], 2, 1, 1⟩

/-- The empty store, with all auto-increment counters at 1. -/
def dbEmpty : Store := ⟨[], [], [], 1, 1, 1⟩

/-- Store holding exactly the given mentors and nothing else. -/
def mkMentorStore (l : List Mentor) : Store := ⟨[], l, [], 1, 1, 1⟩

/-- A mentor whose expertise is "Data Science". -/
def mDS : Mentor := ⟨1, "Alice", 40, "Hyderabad", "Data Science", 10⟩

/-- Store holding exactly the mentor `mDS`. -/
def dbDS : Store := ⟨[], [mDS], [], 1, 2, 1⟩

/-- A service provider whose service_type is "Plumbing". -/
def pPL : ServiceProvider := ⟨1, "Bob", "Plumbing", 5, "hourly", "weekdays"⟩

/-- Store holding exactly the provider `pPL`. -/
def dbPL : Store := ⟨[], [], [pPL], 1, 1, 2⟩

/-! Properties of the `LIKE` matcher: a pattern `%q%` whose core `q` holds
no wildcard and no escape characters matches a subject exactly when `q`
occurs in it as a case-insensitive substring. -/

theorem suffixesL_any_isEmpty (l : List Char) :
    (suffixesL l).any (fun s => s.isEmpty) = true := by
  induction l with
  | nil => rfl
  | cons c t ih => simp [suffixesL, List.any_cons, ih]

theorem likeMatchTok_pct_nil (l : List Char) : likeMatchTokCI [LikeTok.pct] l = true := by
  have h := suffixesL_any_isEmpty l
  simpa [likeMatchTokCI] using h

theorem likeMatchTok_pct_pct (l : List Char) :
    likeMatchTokCI [LikeTok.pct, LikeTok.pct] l = true := by
  cases l with
  | nil => rfl
  | cons c t =>
    have e : likeMatchTokCI [LikeTok.pct, LikeTok.pct] (c :: t)
        = ((c :: t) :: suffixesL t).any (fun s => likeMatchTokCI [LikeTok.pct] s) := rfl
    rw [e, List.any_cons, likeMatchTok_pct_nil]
    simp

theorem likeMatchTok_lit_pct (q : List Char) :
    ∀ l, likeMatchTokCI (q.map LikeTok.lit ++ [LikeTok.pct]) l = isPrefixCI q l := by
  induction q with
  | nil => intro l; simp [isPrefixCI, likeMatchTok_pct_nil l]
  | cons c q' ih =>
    intro l
    cases l with
    | nil => simp [likeMatchTokCI, isPrefixCI]
    | cons d l' => simp [likeMatchTokCI, isPrefixCI, ih l']

theorem likeMatchTok_wrap (q : List Char) :
    ∀ l, likeMatchTokCI (LikeTok.pct :: (q.map LikeTok.lit ++ [LikeTok.pct])) l
      = isInfixCI q l := by
  intro l
  induction l with
  | nil => simp [likeMatchTokCI, suffixesL, isInfixCI, likeMatchTok_lit_pct q []]
  | cons d l' ih =>
    simp only [likeMatchTokCI, suffixesL, List.any_cons] at ih ⊢
    rw [ih]
    simp [isInfixCI, likeMatchTok_lit_pct q (d :: l')]

theorem lexLikeAux_pct (ps : List Char) :
    lexLikeAux false ('%' :: ps) = LikeTok.pct :: lexLikeAux false ps := rfl

theorem lexLike_literal (q : List Char) (hq : noWildcardL q = true) :
    lexLikeAux false (q ++ ['%']) = q.map LikeTok.lit ++ [LikeTok.pct] := by
  induction q with
  | nil => rfl
  | cons c q' ih =>
    simp only [noWildcardL, List.all_cons, Bool.and_eq_true, Bool.not_eq_true',
      beq_eq_false_iff_ne, ne_eq] at hq
    obtain ⟨⟨⟨hc1, hc2⟩, hc0⟩, hq'⟩ := hq
    have ih' := ih (by simpa [noWildcardL] using hq')
    simp [lexLikeAux, hc0, hc1, hc2, ih']

theorem ilike_wrap_eq_contains (s q : String) (hq : noWildcard q = true) :
    ilike s ("%" ++ q ++ "%") = strContainsCI s q := by
  have hdata : ("%" ++ q ++ "%").data = '%' :: (q.data ++ ['%']) := by
    simp [String.data_append]
  unfold ilike strContainsCI lexLike
  rw [hdata, lexLikeAux_pct, lexLike_literal q.data hq]
  exact likeMatchTok_wrap q.data s.data

/-- Boundary of the wildcard-free restriction: the backslash-bearing query
"\A" is matched through escape semantics — the handler pattern `%\A%`
matches "Data Science", since the escaped `A` compares case-insensitively
with its `a` — although "Data Science" does not contain "\A" as a
substring.  Hence `noWildcard` also excludes the escape character. -/
theorem ilike_escape_not_substring :
    ilike "Data Science" ("%" ++ "\\A" ++ "%") = true
    ∧ strContainsCI "Data Science" "\\A" = false :=
  ⟨rfl, rfl⟩

/-- C1: registering a user whose email exactly matches a stored user's email
fails with HTTP 400 (ConflictError) and returns the store unchanged: no row
inserted, no row modified. -/
theorem register_user_duplicate_email (hashp : String → String)
    (name email phone preferred_language role password : String) (db : Store)
    (h : ∃ u ∈ db.users, u.email = email) :
    register_user hashp name email phone preferred_language role password db =
      (Except.error ⟨400, "Email already registered"⟩, db) := by
  have hfind : (db.users.find? (fun u => u.email == email)).isSome := by
    rw [List.find?_isSome]
    obtain ⟨u, hu, he⟩ := h
    exact ⟨u, hu, by simp [he]⟩
  simp [register_user, hfind]

/-- Witness for C1: re-registering `ann@example.com` in `dbW1` fails with
400 and leaves the store as it was. -/
theorem register_user_duplicate_email_witness :
    register_user hashW "Bob" "ann@example.com" "222" "en" "user" "pw" dbW1 =
      (Except.error ⟨400, "Email already registered"⟩, dbW1) :=
  register_user_duplicate_email hashW "Bob" "ann@example.com" "222" "en" "user" "pw" dbW1
    ⟨⟨1, "Ann", "ann@example.com", "111", "en", "user", "bc$secret"⟩, by decide, rfl⟩

/-- C2: registering a fresh email succeeds, responds with all submitted
fields plus the generated id (the response type has no password or hash
field), appends exactly one row whose `password_hash` is `hash_password`
applied to the submitted password, and — whenever the hash differs from the
raw password, as bcrypt's format guarantees — no newly stored row carries
the raw password in its `password_hash` field. -/
theorem register_user_fresh_email (hashp : String → String)
    (name email phone preferred_language role password : String) (db : Store)
    (h : ∀ u ∈ db.users, u.email ≠ email) :
    (register_user hashp name email phone preferred_language role password db).fst =
      Except.ok ⟨db.next_user_id, name, email, phone, preferred_language, role⟩
    ∧ (register_user hashp name email phone preferred_language role password db).snd.users =
        db.users ++
          [⟨db.next_user_id, name, email, phone, preferred_language, role, hashp password⟩]
    ∧ (register_user hashp name email phone preferred_language role password db).snd.mentors =
        db.mentors
    ∧ (register_user hashp name email phone preferred_language role password db).snd.providers =
        db.providers
    ∧ (hashp password ≠ password →
        ∀ u ∈ (register_user hashp name email phone preferred_language role password db).snd.users,
          u.password_hash = password → u ∈ db.users) := by
  have hfind : db.users.find? (fun u => u.email == email) = none := by
    rw [List.find?_eq_none]
    intro x hx
    simpa using h x hx
  refine ⟨by simp [register_user, hfind], by simp [register_user, hfind],
    by simp [register_user, hfind], by simp [register_user, hfind], ?_⟩
  intro hne u hu hupw
  simp only [register_user, hfind, Option.isSome_none, Bool.false_eq_true, if_false,
    List.mem_append, List.mem_singleton] at hu
  rcases hu with hu | hu
  · exact hu
  · exact absurd (hupw ▸ congrArg User.password_hash hu) (Ne.symm hne)

/-- Witness for C2: registering into the empty store with a concrete stand-in
hash function. -/
theorem register_user_fresh_email_witness :
    (register_user hashW "Ann" "ann@example.com" "111" "en" "user" "secret" dbEmpty).fst =
      Except.ok ⟨1, "Ann", "ann@example.com", "111", "en", "user"⟩
    ∧ (register_user hashW "Ann" "ann@example.com" "111" "en" "user" "secret" dbEmpty).snd.users =
        dbEmpty.users ++ [⟨1, "Ann", "ann@example.com", "111", "en", "user", hashW "secret"⟩]
    ∧ (register_user hashW "Ann" "ann@example.com" "111" "en" "user" "secret" dbEmpty).snd.mentors =
        dbEmpty.mentors
    ∧ (register_user hashW "Ann" "ann@example.com" "111" "en" "user" "secret" dbEmpty).snd.providers =
        dbEmpty.providers
    ∧ (hashW "secret" ≠ "secret" →
        ∀ u ∈ (register_user hashW "Ann" "ann@example.com" "111" "en" "user" "secret" dbEmpty).snd.users,
          u.password_hash = "secret" → u ∈ dbEmpty.users) :=
  register_user_fresh_email hashW "Ann" "ann@example.com" "111" "en" "user" "secret" dbEmpty
    (by decide)

/-- C3: each list handler returns the sub-sequence of at most `limit`
records of its own table starting after the first `skip` records in
insertion order, with no filtering; the parameter defaults are 0 and 10; and
over a table of 15 mentors, `skip = 0, limit = 10` returns exactly the first
10 mentors in insertion order. -/
theorem list_pagination (skip limit : Nat) (db : Store)
    (m1 m2 m3 m4 m5 m6 m7 m8 m9 m10 m11 m12 m13 m14 m15 : Mentor) :
    fetch_users skip limit db = (db.users.drop skip).take limit
    ∧ fetch_mentors skip limit db = (db.mentors.drop skip).take limit
    ∧ fetch_service_providers skip limit db = (db.providers.drop skip).take limit
    ∧ (fetch_users skip limit db).length ≤ limit
    ∧ (fetch_mentors skip limit db).length ≤ limit
    ∧ (fetch_service_providers skip limit db).length ≤ limit
    ∧ fetch_mentors default_skip default_limit db = db.mentors.take 10
    ∧ fetch_mentors 0 10
        (mkMentorStore [m1, m2, m3, m4, m5, m6, m7, m8, m9, m10, m11, m12, m13, m14, m15])
        = [m1, m2, m3, m4, m5, m6, m7, m8, m9, m10]
    ∧ (fetch_mentors 0 10
        (mkMentorStore [m1, m2, m3, m4, m5, m6, m7, m8, m9, m10, m11, m12, m13, m14, m15])).length
        = 10 :=
  ⟨rfl, rfl, rfl,
   List.length_take_le limit _, List.length_take_le limit _, List.length_take_le limit _,
   by simp [fetch_mentors, default_skip, default_limit],
   rfl, rfl⟩

/-- C8: no operation updates or deletes an existing record.  Each register
handler appends exactly one row to the table its service owns and leaves the
other two tables untouched (`register_user` appends at most one row: none on
the 400 path, one on success); search handlers and get-by-id return the
store exactly as received.  The list handlers read the store without
returning a new one, so they cannot change it by construction. -/
theorem frame_invariant (hashp : String → String)
    (name email phone preferred_language role password : String)
    (mname : String) (age : Int) (location expertise : String) (mexp : Int)
    (pname ptype : String) (pexp : Int) (ppm pav : String)
    (q1 q2 : String) (pid : Nat) (db : Store) :
    ((register_user hashp name email phone preferred_language role password db).snd.mentors
        = db.mentors
      ∧ (register_user hashp name email phone preferred_language role password db).snd.providers
        = db.providers
      ∧ ∃ tail, tail.length ≤ 1
          ∧ (register_user hashp name email phone preferred_language role password db).snd.users
              = db.users ++ tail)
    ∧ ((register_mentor mname age location expertise mexp db).snd.users = db.users
      ∧ (register_mentor mname age location expertise mexp db).snd.providers = db.providers
      ∧ ∃ r, (register_mentor mname age location expertise mexp db).snd.mentors
          = db.mentors ++ [r])
    ∧ ((register_service_provider pname ptype pexp ppm pav db).snd.users = db.users
      ∧ (register_service_provider pname ptype pexp ppm pav db).snd.mentors = db.mentors
      ∧ ∃ r, (register_service_provider pname ptype pexp ppm pav db).snd.providers
          = db.providers ++ [r])
    ∧ (search_mentors_by_expertise q1 db).snd = db
    ∧ (search_service_providers q2 db).snd = db
    ∧ (fetch_service_provider pid db).snd = db := by
  refine ⟨⟨?_, ?_, ?_⟩, ⟨rfl, rfl, ⟨_, rfl⟩⟩, ⟨rfl, rfl, ⟨_, rfl⟩⟩, ?_, ?_, ?_⟩
  · by_cases hc : (db.users.find? (fun u => u.email == email)).isSome <;>
      simp [register_user, hc]
  · by_cases hc : (db.users.find? (fun u => u.email == email)).isSome <;>
      simp [register_user, hc]
  · by_cases hc : (db.users.find? (fun u => u.email == email)).isSome
    · exact ⟨[], by simp, by simp [register_user, hc]⟩
    · exact ⟨[⟨db.next_user_id, name, email, phone, preferred_language, role, hashp password⟩],
        by simp, by simp [register_user, hc]⟩
  · unfold search_mentors_by_expertise
    dsimp only
    split <;> rfl
  · unfold search_service_providers
    dsimp only
    split <;> rfl
  · unfold fetch_service_provider
    cases db.providers.find? (fun p => p.id == pid) <;> rfl

/-- C10: the empty query wraps to the LIKE pattern `%%`, which matches every
record; both search handlers therefore return their entire table and raise
404 exactly when that table is empty. -/
theorem search_empty_query (db : Store) :
    search_mentors_by_expertise "" db =
      (if db.mentors.isEmpty
        then Except.error ⟨404, "No mentors found with the given expertise"⟩
        else Except.ok db.mentors, db)
    ∧ search_service_providers "" db =
      (if db.providers.isEmpty
        then Except.error ⟨404, "No mentors found with the given expertise"⟩
        else Except.ok db.providers, db) := by
  have hpct : ∀ s : String, ilike s ("%" ++ "" ++ "%") = true := by
    intro s
    have hdata : ("%" ++ "" ++ "%").data = ['%', '%'] := by simp [String.data_append]
    unfold ilike lexLike
    rw [hdata]
    exact likeMatchTok_pct_pct s.data
  constructor
  · have hfilter : db.mentors.filter (fun m => ilike m.expertise ("%" ++ "" ++ "%"))
        = db.mentors :=
      List.filter_eq_self.mpr (fun m _ => hpct m.expertise)
    simp only [search_mentors_by_expertise, hfilter]
    split <;> simp_all
  · have hfilter : db.providers.filter (fun p => ilike p.service_type ("%" ++ "" ++ "%"))
        = db.providers :=
      List.filter_eq_self.mpr (fun p _ => hpct p.service_type)
    simp only [search_service_providers, hfilter]
    split <;> simp_all

/-! Search handlers on wildcard-free queries. -/

theorem search_mentors_eq_substring_form (q : String) (db : Store)
    (hq : noWildcard q = true) :
    search_mentors_by_expertise q db =
      (if (db.mentors.filter (fun m => strContainsCI m.expertise q)).isEmpty
        then Except.error ⟨404, "No mentors found with the given expertise"⟩
        else Except.ok (db.mentors.filter (fun m => strContainsCI m.expertise q)), db) := by
  have hfilter : db.mentors.filter (fun m => ilike m.expertise ("%" ++ q ++ "%"))
      = db.mentors.filter (fun m => strContainsCI m.expertise q) :=
    List.filter_congr (fun m _ => ilike_wrap_eq_contains m.expertise q hq)
  simp only [search_mentors_by_expertise, hfilter]
  split <;> simp_all

theorem search_providers_eq_substring_form (q : String) (db : Store)
    (hq : noWildcard q = true) :
    search_service_providers q db =
      (if (db.providers.filter (fun p => strContainsCI p.service_type q)).isEmpty
        then Except.error ⟨404, "No mentors found with the given expertise"⟩
        else Except.ok (db.providers.filter (fun p => strContainsCI p.service_type q)), db) := by
  have hfilter : db.providers.filter (fun p => ilike p.service_type ("%" ++ q ++ "%"))
      = db.providers.filter (fun p => strContainsCI p.service_type q) :=
    List.filter_congr (fun p _ => ilike_wrap_eq_contains p.service_type q hq)
  simp only [search_service_providers, hfilter]
  split <;> simp_all

/-- Counterexample to C4 as stated: the claim quantifies over every query
string, but the query `"_"` is an SQL LIKE wildcard, so the handler returns
the "Data Science" mentor even though `"Data Science"` does not contain
`"_"` as a (case-insensitive) substring. -/
theorem search_wildcard_not_substring_cex :
    (search_mentors_by_expertise "_" dbDS).fst = Except.ok [mDS]
    ∧ strContainsCI mDS.expertise "_" = false :=
  ⟨rfl, rfl⟩

/-- C4 (amended): for every query string free of the SQL LIKE wildcard
characters `%` and `_` and of the default escape character `\`, the mentor
search returns exactly those stored mentors whose expertise contains the
query as a case-insensitive substring (404 when there are none); in
particular "DATA" matches expertise "Data Science".  Queries holding
wildcards or escapes are interpreted through LIKE pattern semantics
instead. -/
theorem search_mentors_substring (q : String) (db : Store) (hq : noWildcard q = true) :
    search_mentors_by_expertise q db =
      (if (db.mentors.filter (fun m => strContainsCI m.expertise q)).isEmpty
        then Except.error ⟨404, "No mentors found with the given expertise"⟩
        else Except.ok (db.mentors.filter (fun m => strContainsCI m.expertise q)), db)
    ∧ strContainsCI "Data Science" "DATA" = true :=
  ⟨search_mentors_eq_substring_form q db hq, by decide⟩

/-- Witness for C4 (amended): searching "DATA" over the store holding the
"Data Science" mentor returns exactly that mentor. -/
theorem search_mentors_substring_witness :
    noWildcard "DATA" = true
    ∧ search_mentors_by_expertise "DATA" dbDS = (Except.ok [mDS], dbDS) :=
  ⟨by decide, by
    have h := (search_mentors_substring "DATA" dbDS (by decide)).1
    rw [h]
    rfl⟩

/-- Counterexample to C6 as stated: for the query `"%"` (an SQL LIKE
wildcard) zero stored providers contain the query as a substring, yet the
handler does not fail: it returns every provider. -/
theorem search_providers_wildcard_cex :
    (search_service_providers "%" dbPL).fst = Except.ok [pPL]
    ∧ dbPL.providers.filter (fun p => strContainsCI p.service_type "%") = [] :=
  ⟨rfl, rfl⟩

/-- C6 (amended): for every query string free of the SQL LIKE wildcards
`%` and `_` and of the default escape character `\`, the mentor search and
the provider search fail — with status 404 and, in both handlers, the
mentor-worded message — exactly when zero stored records contain the query
as a case-insensitive substring, and otherwise return the non-empty list of
matching records; queries holding wildcards or escapes are interpreted
through LIKE pattern semantics instead. -/
theorem search_notfound_iff (q : String) (db : Store) (hq : noWildcard q = true) :
    ((search_mentors_by_expertise q db).fst
        = Except.error ⟨404, "No mentors found with the given expertise"⟩
      ↔ db.mentors.filter (fun m => strContainsCI m.expertise q) = [])
    ∧ (db.mentors.filter (fun m => strContainsCI m.expertise q) ≠ [] →
        (search_mentors_by_expertise q db).fst
          = Except.ok (db.mentors.filter (fun m => strContainsCI m.expertise q)))
    ∧ ((search_service_providers q db).fst
        = Except.error ⟨404, "No mentors found with the given expertise"⟩
      ↔ db.providers.filter (fun p => strContainsCI p.service_type q) = [])
    ∧ (db.providers.filter (fun p => strContainsCI p.service_type q) ≠ [] →
        (search_service_providers q db).fst
          = Except.ok (db.providers.filter (fun p => strContainsCI p.service_type q))) := by
  have hm := search_mentors_eq_substring_form q db hq
  have hp := search_providers_eq_substring_form q db hq
  refine ⟨?_, ?_, ?_, ?_⟩
  · rw [hm]
    by_cases hF : db.mentors.filter (fun m => strContainsCI m.expertise q) = []
    · simp [hF]
    · have hFb : (db.mentors.filter (fun m => strContainsCI m.expertise q)).isEmpty = false := by
        simpa [List.isEmpty_iff] using hF
      simp [hFb, hF]
  · intro hF
    rw [hm]
    have hFb : (db.mentors.filter (fun m => strContainsCI m.expertise q)).isEmpty = false := by
      simpa [List.isEmpty_iff] using hF
    simp [hFb]
  · rw [hp]
    by_cases hF : db.providers.filter (fun p => strContainsCI p.service_type q) = []
    · simp [hF]
    · have hFb : (db.providers.filter (fun p => strContainsCI p.service_type q)).isEmpty = false := by
        simpa [List.isEmpty_iff] using hF
      simp [hFb, hF]
  · intro hF
    rw [hp]
    have hFb : (db.providers.filter (fun p => strContainsCI p.service_type q)).isEmpty = false := by
      simpa [List.isEmpty_iff] using hF
    simp [hFb]

/-- Witness for C6 (amended): the spec's own example query, over the store
holding one "Plumbing" provider, fails with 404. -/
theorem search_notfound_iff_witness :
    noWildcard "zzz-nonexistent" = true
    ∧ (search_service_providers "zzz-nonexistent" dbPL).fst
        = Except.error ⟨404, "No mentors found with the given expertise"⟩ :=
  ⟨by decide, (search_notfound_iff "zzz-nonexistent" dbPL (by decide)).2.2.1.mpr (by decide)⟩

/-! Get-by-id and the register/get round trip. -/

theorem find?_id_eq_some_of_pairwise {l : List ServiceProvider} {pid : Nat}
    {r : ServiceProvider} (hp : l.Pairwise (fun a b => a.id ≠ b.id)) (hr : r ∈ l)
    (hid : r.id = pid) : l.find? (fun p => p.id == pid) = some r := by
  induction l with
  | nil => cases hr
  | cons a t ih =>
    rcases List.pairwise_cons.mp hp with ⟨ha, ht⟩
    rcases List.mem_cons.mp hr with hra | hrt
    · subst hra
      rw [List.find?_cons_of_pos _ (by simpa using hid)]
    · have hane : a.id ≠ pid := by
        rw [← hid]
        exact ha r hrt
      rw [List.find?_cons_of_neg _ (by simpa using hane)]
      exact ih ht hrt

/-- C5: registering a service provider and immediately fetching the id the
register handler returned yields a record whose every field (name,
service_type, experience, pricing_model, availability) equals the
registered input.  The hypothesis — every stored id is below the table's
auto-increment counter — is the store invariant MySQL auto-increment
maintains. -/
theorem provider_register_get_roundtrip (name service_type : String) (experience : Int)
    (pricing_model availability : String) (db : Store)
    (h : ∀ r ∈ db.providers, r.id < db.next_provider_id) :
    (register_service_provider name service_type experience pricing_model availability db).fst
      = ⟨db.next_provider_id, name, service_type, experience, pricing_model, availability⟩
    ∧ fetch_service_provider
        (register_service_provider name service_type experience pricing_model availability db).fst.id
        (register_service_provider name service_type experience pricing_model availability db).snd
      = (Except.ok
          ⟨db.next_provider_id, name, service_type, experience, pricing_model, availability⟩,
         (register_service_provider name service_type experience pricing_model availability db).snd) := by
  have hnone : db.providers.find? (fun p => p.id == db.next_provider_id) = none := by
    rw [List.find?_eq_none]
    intro r hr
    simpa using Nat.ne_of_lt (h r hr)
  refine ⟨rfl, ?_⟩
  simp only [register_service_provider, fetch_service_provider]
  rw [List.find?_append, hnone]
  simp

/-- Witness for C5: registering a provider into the empty store and fetching
the returned id 1. -/
theorem provider_register_get_roundtrip_witness :
    (register_service_provider "Bob" "Plumbing" 5 "hourly" "weekdays" dbEmpty).fst
      = ⟨dbEmpty.next_provider_id, "Bob", "Plumbing", 5, "hourly", "weekdays"⟩
    ∧ fetch_service_provider
        (register_service_provider "Bob" "Plumbing" 5 "hourly" "weekdays" dbEmpty).fst.id
        (register_service_provider "Bob" "Plumbing" 5 "hourly" "weekdays" dbEmpty).snd
      = (Except.ok
          ⟨dbEmpty.next_provider_id, "Bob", "Plumbing", 5, "hourly", "weekdays"⟩,
         (register_service_provider "Bob" "Plumbing" 5 "hourly" "weekdays" dbEmpty).snd) :=
  provider_register_get_roundtrip "Bob" "Plumbing" 5 "hourly" "weekdays" dbEmpty (by decide)

/-- C7: get-by-id over service providers fails with 404 when no stored
provider has the requested id, returns the unique provider with that id
otherwise, and leaves the store unchanged either way.  The hypothesis is
id-uniqueness of the table, the invariant the primary key maintains. -/
theorem fetch_service_provider_spec (pid : Nat) (db : Store)
    (hp : db.providers.Pairwise (fun a b => a.id ≠ b.id)) :
    ((∀ r ∈ db.providers, r.id ≠ pid) →
      fetch_service_provider pid db
        = (Except.error ⟨404, "Service provider not found"⟩, db))
    ∧ ∀ r ∈ db.providers, r.id = pid →
        fetch_service_provider pid db = (Except.ok r, db) := by
  constructor
  · intro h
    have hnone : db.providers.find? (fun p => p.id == pid) = none := by
      rw [List.find?_eq_none]
      intro r hr
      simpa using h r hr
    simp [fetch_service_provider, hnone]
  · intro r hr hid
    simp [fetch_service_provider, find?_id_eq_some_of_pairwise hp hr hid]

/-- Witness for C7: in the store holding the single provider `pPL` (id 1),
fetching id 2 fails with 404 and fetching id 1 returns `pPL`. -/
theorem fetch_service_provider_spec_witness :
    fetch_service_provider 2 dbPL = (Except.error ⟨404, "Service provider not found"⟩, dbPL)
    ∧ fetch_service_provider 1 dbPL = (Except.ok pPL, dbPL) :=
  ⟨(fetch_service_provider_spec 2 dbPL (by simp [dbPL])).1 (by decide),
   (fetch_service_provider_spec 1 dbPL (by simp [dbPL])).2 pPL (by simp [dbPL, pPL]) rfl⟩

/-- C9: the user-list handler returns raw stored rows — its output type is
the full `User` row including `password_hash`, and after a successful
registration the stored bcrypt hash itself appears in a listed row — unlike
`register_user`, whose response omits the hash (C2). -/
theorem fetch_users_exposes_hash (hashp : String → String)
    (name email phone preferred_language role password : String)
    (skip limit : Nat) (db : Store)
    (h : ∀ u ∈ db.users, u.email ≠ email) :
    (∀ u ∈ fetch_users skip limit db, u ∈ db.users)
    ∧ ∃ u ∈ fetch_users 0
        ((register_user hashp name email phone preferred_language role password db).snd.users.length)
        ((register_user hashp name email phone preferred_language role password db).snd),
        u.password_hash = hashp password := by
  constructor
  · intro u hu
    simp only [fetch_users] at hu
    exact List.drop_subset skip db.users (List.take_subset limit (db.users.drop skip) hu)
  · have hfind : db.users.find? (fun u => u.email == email) = none := by
      rw [List.find?_eq_none]
      intro x hx
      simpa using h x hx
    refine ⟨⟨db.next_user_id, name, email, phone, preferred_language, role, hashp password⟩,
      ?_, rfl⟩
    simp only [fetch_users, register_user, hfind, Option.isSome_none, Bool.false_eq_true,
      if_false, List.drop_zero]
    rw [List.take_of_length_le (by simp)]
    simp

/-- Witness for C9: listing users after registering into the empty store
returns a row whose `password_hash` is the stand-in bcrypt hash. -/
theorem fetch_users_exposes_hash_witness :
    (∀ u ∈ fetch_users 0 10 dbEmpty, u ∈ dbEmpty.users)
    ∧ ∃ u ∈ fetch_users 0
        ((register_user hashW "Ann" "ann@example.com" "111" "en" "user" "secret" dbEmpty).snd.users.length)
        ((register_user hashW "Ann" "ann@example.com" "111" "en" "user" "secret" dbEmpty).snd),
        u.password_hash = hashW "secret" :=
  fetch_users_exposes_hash hashW "Ann" "ann@example.com" "111" "en" "user" "secret" 0 10 dbEmpty
    (by decide)
